import Mathlib

/-!
# Verification of the Backrooms game loop

Shallow embedding of the core game-loop logic of the Backrooms browser
game (source: `src/unnamed/part_000`).  Coordinates, velocities and times
are modelled as exact rationals (`ℚ`); the JavaScript source computes with
IEEE doubles, and every concrete value used in a theorem below is a dyadic
rational on which double arithmetic is exact, so the comparisons the
theorems evaluate agree with what the source computes.  The transcendental
values `Math.cos(rotY)` / `Math.sin(rotY)` appearing in the movement code
are passed in as parameters rather than recomputed, and the wall-clock
timer (`Date.now() - startTimeRef`) is modelled by an explicit `elapsed`
field advanced by the per-frame delta `dt`.
-/

/-- A wall's axis-aligned bounding rectangle (`interface Wall`). -/
structure Wall where
  minX : ℚ
  maxX : ℚ
  minZ : ℚ
  maxZ : ℚ
deriving DecidableEq, Repr

/-- The player state (`interface PlayerState`). -/
structure PlayerState where
  x : ℚ
  z : ℚ
  y : ℚ
  vy : ℚ
  dir : ℚ
  pitch : ℚ
  speed : ℚ
  radius : ℚ
deriving DecidableEq, Repr

/-- One wall's test inside `checkCollision`'s loop: the body of
`for(const w of wallsRef.current)`, with the player's collision radius
passed explicitly.  The source uses strict `>` / `<` comparisons. -/
def wallHit (radius x z : ℚ) (w : Wall) : Bool :=
  decide (x + radius > w.minX) && decide (x - radius < w.maxX) &&
  decide (z + radius > w.minZ) && decide (z - radius < w.maxZ)

/-- `checkCollision(x, z)` from the animation loop: linear scan over the
current wall list, returning true on the first overlapping wall. -/
def checkCollision (walls : List Wall) (radius x z : ℚ) : Bool :=
  walls.any (wallHit radius x z)

/-- The spec's reading of the collision contract, written from its words:
the circle overlaps a wall iff its center lies within the wall's bounds
expanded by the radius on each side, with INCLUSIVE bounds (touching
counts as overlap).  Kept separate from `checkCollision` so the two can
be compared. -/
def collidesSpecInclusive (walls : List Wall) (radius x z : ℚ) : Bool :=
  walls.any (fun w =>
    decide (w.minX - radius ≤ x) && decide (x ≤ w.maxX + radius) &&
    decide (w.minZ - radius ≤ z) && decide (z ≤ w.maxZ + radius))

/-- `jump()`: applies the fixed impulse 0.15 only when grounded
(`y <= 0.01`). -/
def jump (p : PlayerState) : PlayerState :=
  if p.y ≤ 0.01 then { p with vy := 0.15 } else p

/-- The gravity-and-floor section of `animate`:
`vy -= 0.015; y += vy; if (y < 0) { y = 0; vy = 0 }`. -/
def gravityStep (p : PlayerState) : PlayerState :=
  let vy := p.vy - 0.015
  let y := p.y + vy
  if y < 0 then { p with y := 0, vy := 0 }
  else { p with y := y, vy := vy }

/-- The movement-delta computation of `animate`, given the input axes,
the player speed, and the values `c = Math.cos(input.rotY)` and
`s = Math.sin(input.rotY)` (passed in since they are transcendental):
`dz = (fwd*c - side*s)*speed; dx = (fwd*s + side*c)*speed`.
Returns `(dx, dz)`. -/
def moveDelta (fwd side speed c s : ℚ) : ℚ × ℚ :=
  ((fwd * s + side * c) * speed, (fwd * c - side * s) * speed)

/-- The per-axis collision resolution of `animate`:
`if(!checkCollision(x - dx, z)) x -= dx; if(!checkCollision(x, z - dz)) z -= dz;`
The second query uses the x coordinate as already updated by the first. -/
def applyMovement (walls : List Wall) (dx dz : ℚ) (p : PlayerState) : PlayerState :=
  let p1 := if checkCollision walls p.radius (p.x - dx) p.z then p
            else { p with x := p.x - dx }
  if checkCollision walls p1.radius p1.x (p1.z - dz) then p1
  else { p1 with z := p1.z - dz }

/-- The flashlight/sanity portion of the game state: `flashlightTimerRef`
and the sanity voices' gain value (`sanityAudioGainRef.current.gain.value`). -/
structure SanityState where
  flashlightTimer : ℚ
  gain : ℚ
deriving DecidableEq, Repr

/-- The flashlight sanity section of `animate` (the light-intensity and
flicker effects are render-side and carry no game state).  When on, the
timer accumulates `dt` and: past 15s the gain ramps by 0.001 toward the
0.2 ceiling, otherwise the gain is set to 0.  When off, the timer decays
at double rate and the gain decays by 0.01 toward 0. -/
def sanityTick (flashlightOn : Bool) (dt : ℚ) (s : SanityState) : SanityState :=
  if flashlightOn then
    let t := s.flashlightTimer + dt
    if t > 15 then
      { flashlightTimer := t, gain := min 0.2 (s.gain + 0.001) }
    else
      { flashlightTimer := t, gain := 0 }
  else
    { flashlightTimer := max 0 (s.flashlightTimer - dt * 2),
      gain := max 0 (s.gain - 0.01) }

/-- The session states of `gameState`. -/
inductive Session where
  | MENU
  | PLAYING
  | WON
  | LOST
deriving DecidableEq, Repr

/-- The per-frame inputs consumed by one run of `animate`: the frame delta
`dt = clock.getDelta()`, the input axes `fwd`/`side` from `inputRef`, and
the precomputed values `cosRotY = Math.cos(input.rotY)` and
`sinRotY = Math.sin(input.rotY)` (transcendental, hence parameters). -/
structure TickInput where
  dt : ℚ
  fwd : ℚ
  side : ℚ
  cosRotY : ℚ
  sinRotY : ℚ
deriving DecidableEq, Repr

/-- The mutable game-loop state: `gameState`, `level`, `isGameEndedRef`,
elapsed seconds since `startTimeRef` (the source recomputes this from
`Date.now()`; the model advances it by `dt`), `isFlashlightOnRef`, the
sanity state, the player, the door position for the current level, and
the current wall list. -/
structure GameState where
  session : Session
  level : Nat
  ended : Bool
  elapsed : ℚ
  flashlightOn : Bool
  sanity : SanityState
  player : PlayerState
  doorX : ℚ
  doorZ : ℚ
  walls : List Wall
deriving DecidableEq, Repr

/-- Door proximity as `animate` tests it: `Math.hypot(x-doorX, z-doorZ) < 1.5`.
For nonnegative bound 1.5 this is equivalent to the squared comparison,
which keeps the test rational-exact. -/
def nearDoor (g : GameState) : Bool :=
  decide ((g.player.x - g.doorX) ^ 2 + (g.player.z - g.doorZ) ^ 2 < (3 / 2 : ℚ) ^ 2)

/-- One run of the `animate` body (rendering and DOM updates dropped):
terminal-flag early return, flashlight sanity update, timer expiry check
(`remaining = max(0, 300 - elapsed)`, lose when it reaches 0), door logic
(level 0: advance to level 1, reposition player to origin, reset timer and
flashlight timer, remain in the same session state; level 1: win and set
the terminal flag), then gravity/floor physics and per-axis movement.
Wall and door regeneration for the new level happens outside the loop (in
the effect that remounts on a level change) and is not part of the tick. -/
def tick (i : TickInput) (g : GameState) : GameState :=
  if g.ended then g
  else
    let san := sanityTick g.flashlightOn i.dt g.sanity
    let elapsed := g.elapsed + i.dt
    let remaining := max 0 (300 - elapsed)
    if remaining ≤ 0 then
      { g with sanity := san, elapsed := elapsed,
               ended := true, session := Session.LOST }
    else if nearDoor g then
      if g.level = 0 then
        { g with sanity := { flashlightTimer := 0, gain := san.gain },
                 elapsed := 0,
                 level := 1,
                 player := { g.player with x := 0, z := 0 } }
      else
        { g with sanity := san, elapsed := elapsed,
                 ended := true, session := Session.WON }
    else
      let p1 := gravityStep g.player
      let d := moveDelta i.fwd i.side p1.speed i.cosRotY i.sinRotY
      { g with sanity := san, elapsed := elapsed,
               player := applyMovement g.walls d.1 d.2 p1 }

/-- Run `n` successive frames with the per-frame inputs `inps 0, inps 1, ...`. -/
def runTicks (inps : Nat → TickInput) : Nat → GameState → GameState
  | 0, g => g
  | Nat.succ n, g => runTicks (fun k => inps (k + 1)) n (tick (inps 0) g)

/-- The fresh player created by `handleStart`. -/
def initialPlayer : PlayerState :=
  { x := 0, z := 0, y := 0, vy := 0, dir := 0, pitch := 0,
    speed := 0.12, radius := 0.4 }

/-- `handleStart()`: enter PLAYING at level 0 with the timer restarted,
`flashlightTimerRef` zeroed, flashlight on, and the player reset.  The
sanity audio gain node is not touched by `handleStart`.  The terminal
flag is cleared by the PLAYING effect that this state change mounts
(`isGameEndedRef.current = false`), folded in here. -/
def handleStart (g : GameState) : GameState :=
  { g with session := Session.PLAYING, level := 0,
           elapsed := 0,
           sanity := { flashlightTimer := 0, gain := g.sanity.gain },
           flashlightOn := true,
           player := initialPlayer,
           ended := false }

/-- `addWall(x, z, w, d)`'s recorded bounds: a box of width `w` and depth
`d` centered at `(x, z)`. -/
def mkWall (x z w d : ℚ) : Wall :=
  { minX := x - w / 2, maxX := x + w / 2, minZ := z - d / 2, maxZ := z + d / 2 }

/-- The four boundary walls: `addWall(0,-25,51,1); addWall(0,25,51,1);
addWall(-25,0,1,51); addWall(25,0,1,51)`. -/
def boundaryWalls : List Wall :=
  [mkWall 0 (-25) 51 1, mkWall 0 25 51 1, mkWall (-25) 0 1 51, mkWall 25 0 1 51]

/-- One inner-wall candidate of the generation loop: center `(rx, rz)` and
the orientation coin flip (`horizontal = true` means the 4×1 footprint,
`false` the 1×4 one, mirroring `rw = rand > 0.5 ? 4 : 1; rd = rw === 1 ? 4 : 1`). -/
structure WallCand where
  rx : ℚ
  rz : ℚ
  horizontal : Bool
deriving DecidableEq, Repr

/-- The wall a candidate would place. -/
def candWall (c : WallCand) : Wall :=
  mkWall c.rx c.rz (if c.horizontal then 4 else 1) (if c.horizontal then 1 else 4)

/-- The generation loop's acceptance test: the candidate is skipped when
its center is within the 4-unit box around the map center
(`|rx| < 4 && |rz| < 4`) or within the 4-unit box around the door. -/
def candAccepted (doorX doorZ : ℚ) (c : WallCand) : Bool :=
  !(decide (|c.rx| < 4) && decide (|c.rz| < 4)) &&
  !(decide (|c.rx - doorX| < 4) && decide (|c.rz - doorZ| < 4))

/-- C1 counterexample: the source's `checkCollision` uses strict
comparisons, so a circle exactly touching a wall's expanded bounds does
NOT collide, while the claim's inclusive reading says it does.  At
`x = 1/2`, `z = 0`, `radius = 1/2` against the wall `[1,2]×[-1,1]` the
circle touches the expanded bound (`x + radius = minX`): the inclusive
contract reports an overlap, the code reports none.  (All values are
dyadic, so IEEE double arithmetic is exact here.) -/
theorem checkCollision_inclusive_counterexample :
    collidesSpecInclusive [Wall.mk 1 2 (-1) 1] (1/2) (1/2) 0 = true ∧
    checkCollision [Wall.mk 1 2 (-1) 1] (1/2) (1/2) 0 = false := by
  constructor
  · norm_num [collidesSpecInclusive, List.any]
  · norm_num [checkCollision, wallHit, List.any]

/-- C1 (amended): `collides(x, z, radius)` returns true iff the circle's
center lies strictly inside some wall's bounds expanded by the radius on
each side — exclusive bounds, touching does NOT count as overlap; with no
such wall it returns false. -/
theorem checkCollision_iff_strict_overlap (walls : List Wall) (radius x z : ℚ) :
    checkCollision walls radius x z = true ↔
      ∃ w ∈ walls, w.minX - radius < x ∧ x < w.maxX + radius ∧
        w.minZ - radius < z ∧ z < w.maxZ + radius := by
  simp only [checkCollision, List.any_eq_true, wallHit, Bool.and_eq_true,
    decide_eq_true_eq]
  constructor
  · rintro ⟨w, hw, ⟨⟨h1, h2⟩, h3⟩, h4⟩
    exact ⟨w, hw, by linarith, by linarith, by linarith, by linarith⟩
  · rintro ⟨w, hw, h1, h2, h3, h4⟩
    exact ⟨w, hw, ⟨⟨by linarith, by linarith⟩, by linarith⟩, by linarith⟩

/-- Witness for the amended C1 at a concrete strict overlap. -/
theorem checkCollision_iff_strict_overlap_witness :
    checkCollision [Wall.mk 1 2 (-1) 1] (1/2) (3/4) 0 = true :=
  (checkCollision_iff_strict_overlap [Wall.mk 1 2 (-1) 1] (1/2) (3/4) 0).mpr
    ⟨Wall.mk 1 2 (-1) 1, by simp, by norm_num, by norm_num, by norm_num, by norm_num⟩

/-- C4: `jump` sets `vy` to the fixed impulse 0.15 exactly when the
player is grounded (`y ≤ 0.01`), leaving the rest of the state alone,
and is a no-op when airborne (`y > 0.01`). -/
theorem jump_grounded_iff (p : PlayerState) :
    (p.y ≤ 0.01 → jump p = { p with vy := 0.15 }) ∧
    (0.01 < p.y → jump p = p) := by
  constructor
  · intro h
    simp [jump, h]
  · intro h
    simp [jump, not_le.mpr h]

/-- Witness for C4: a grounded jump applies the impulse, an airborne
jump changes nothing. -/
theorem jump_grounded_iff_witness :
    jump initialPlayer = { initialPlayer with vy := 0.15 } ∧
    jump { initialPlayer with y := 1 } = { initialPlayer with y := 1 } :=
  ⟨(jump_grounded_iff initialPlayer).1 (by norm_num [initialPlayer]),
   (jump_grounded_iff { initialPlayer with y := 1 }).2 (by norm_num [initialPlayer])⟩

/-- C6: after the gravity-and-floor step the player's `y` is never below
0, and whenever the clamp fires (the integrated `y` would have gone
negative) both `y = 0` and `vy = 0` hold afterward. -/
theorem gravityStep_floor_invariant (p : PlayerState) :
    0 ≤ (gravityStep p).y ∧
    (p.y + (p.vy - 0.015) < 0 → (gravityStep p).y = 0 ∧ (gravityStep p).vy = 0) := by
  constructor
  · by_cases h : p.y + (p.vy - 0.015) < 0
    · simp [gravityStep, h]
    · simp only [gravityStep]
      rw [if_neg h]
      exact not_lt.mp h
  · intro h
    simp [gravityStep, h]

/-- Witness for C6: a grounded, motionless player is pulled below the
floor by gravity and gets clamped back to `y = 0`, `vy = 0`. -/
theorem gravityStep_floor_invariant_witness :
    0 ≤ (gravityStep initialPlayer).y ∧
    (gravityStep initialPlayer).y = 0 ∧ (gravityStep initialPlayer).vy = 0 :=
  ⟨(gravityStep_floor_invariant initialPlayer).1,
   (gravityStep_floor_invariant initialPlayer).2 (by norm_num [initialPlayer])⟩

/-- C10: on a tick with the flashlight ON whose accumulated timer stays
at or below the 15-second threshold, the sanity gain is set directly to
0 in that single tick (no gradual decay). -/
theorem sanityTick_below_threshold_zero (s : SanityState) (dt : ℚ)
    (h : s.flashlightTimer + dt ≤ 15) :
    (sanityTick true dt s).gain = 0 := by
  have h2 : ¬(15 < s.flashlightTimer + dt) := not_lt.mpr h
  simp [sanityTick, h2]

/-- Witness for C10: gain 0.05 with 10s on the timer snaps to 0. -/
theorem sanityTick_below_threshold_zero_witness :
    (sanityTick true 1 { flashlightTimer := 10, gain := 1/20 }).gain = 0 :=
  sanityTick_below_threshold_zero { flashlightTimer := 10, gain := 1/20 } 1 (by norm_num)

/-- C5: with the gain in its reachable range `[0, 0.2]`, a flashlight-ON
tick past the 15s threshold never decreases the gain and never pushes it
above the 0.2 ceiling, and a flashlight-OFF tick never increases it and
never pushes it below 0. -/
theorem sanityTick_gain_monotone (s : SanityState) (dt : ℚ)
    (h0 : 0 ≤ s.gain) (h2 : s.gain ≤ 0.2) :
    (15 < s.flashlightTimer + dt →
      s.gain ≤ (sanityTick true dt s).gain ∧ (sanityTick true dt s).gain ≤ 0.2) ∧
    ((sanityTick false dt s).gain ≤ s.gain ∧ 0 ≤ (sanityTick false dt s).gain) := by
  constructor
  · intro h
    simp only [sanityTick, if_pos h, if_true]
    exact ⟨le_min h2 (by linarith), min_le_left _ _⟩
  · simp only [sanityTick, Bool.false_eq_true, if_false]
    exact ⟨max_le h0 (by linarith), le_max_left _ _⟩

/-- Witness for C5 at gain 0.1: the ON tick past threshold ramps up and
stays below the ceiling, the OFF tick decays and stays nonnegative. -/
theorem sanityTick_gain_monotone_witness :
    (SanityState.mk 20 (1/10)).gain ≤ (sanityTick true 1 (SanityState.mk 20 (1/10))).gain ∧
    (sanityTick true 1 (SanityState.mk 20 (1/10))).gain ≤ 0.2 ∧
    (sanityTick false 1 (SanityState.mk 20 (1/10))).gain ≤ (SanityState.mk 20 (1/10)).gain ∧
    0 ≤ (sanityTick false 1 (SanityState.mk 20 (1/10))).gain := by
  have h := sanityTick_gain_monotone (SanityState.mk 20 (1/10)) 1 (by norm_num) (by norm_num)
  have h1 := h.1 (by norm_num)
  exact ⟨h1.1, h1.2, h.2.1, h.2.2⟩

/-- C3: per-tick movement resolves each axis independently: the x-delta
is applied exactly when the tentative x position (with the unchanged z)
is collision-free, and the z-delta exactly when the tentative z position
(with the x the tick has by then, i.e. after the x resolution) is
collision-free — so a diagonal move blocked on one axis still advances
along the other (wall sliding). -/
theorem movement_axis_independent (walls : List Wall) (dx dz : ℚ) (p : PlayerState) :
    ((checkCollision walls p.radius (p.x - dx) p.z = false →
        (applyMovement walls dx dz p).x = p.x - dx) ∧
     (checkCollision walls p.radius (p.x - dx) p.z = true →
        (applyMovement walls dx dz p).x = p.x)) ∧
    ((checkCollision walls p.radius (applyMovement walls dx dz p).x (p.z - dz) = false →
        (applyMovement walls dx dz p).z = p.z - dz) ∧
     (checkCollision walls p.radius (applyMovement walls dx dz p).x (p.z - dz) = true →
        (applyMovement walls dx dz p).z = p.z)) := by
  rcases Bool.eq_false_or_eq_true (checkCollision walls p.radius (p.x - dx) p.z) with h1 | h1
  · rcases Bool.eq_false_or_eq_true (checkCollision walls p.radius p.x (p.z - dz)) with h2 | h2
    · simp [applyMovement, h1, h2]
    · simp [applyMovement, h1, h2]
  · rcases Bool.eq_false_or_eq_true
        (checkCollision walls p.radius (p.x - dx) (p.z - dz)) with h2 | h2
    · simp [applyMovement, h1, h2]
    · simp [applyMovement, h1, h2]

/-- A wall flanking the player's +x side, used to exercise wall sliding. -/
def slideWalls : List Wall := [Wall.mk 1 2 (-10) 10]

/-- Witness for C3: a diagonal move into `slideWalls` (both deltas push
toward +x/+z) is blocked on the x axis yet still advances along z. -/
theorem movement_axis_independent_witness :
    (applyMovement slideWalls (-1) (-1) initialPlayer).x = initialPlayer.x ∧
    (applyMovement slideWalls (-1) (-1) initialPlayer).z = initialPlayer.z - (-1) :=
  ⟨(movement_axis_independent slideWalls (-1) (-1) initialPlayer).1.2
      (by norm_num [checkCollision, wallHit, List.any, slideWalls, initialPlayer]),
   (movement_axis_independent slideWalls (-1) (-1) initialPlayer).2.1
      (by norm_num [applyMovement, checkCollision, wallHit, List.any, slideWalls,
        initialPlayer])⟩

/-- A mid-game state at the level-0 door with a ramped-up sanity gain:
flashlight on for 20s, gain at 0.1, player at the door position. -/
def sanityDemoState : GameState :=
  { session := Session.PLAYING, level := 0, ended := false, elapsed := 10,
    flashlightOn := true,
    sanity := { flashlightTimer := 20, gain := 1/10 },
    player := initialPlayer,
    doorX := 0, doorZ := 0,
    walls := [] }

/-- A quiet frame input with one second of delta time. -/
def demoInput : TickInput :=
  { dt := 1, fwd := 0, side := 0, cosRotY := 1, sinRotY := 0 }

/-- C2 counterexample: a level transition fires (level goes 0 → 1,
session stays PLAYING, the flashlight timer is zeroed) yet the sanity
audio gain is NOT 0 immediately afterwards — the door branch only resets
`flashlightTimerRef`, never the gain node — and `handleStart` likewise
leaves the gain untouched. -/
theorem sanity_reset_counterexample :
    (tick demoInput sanityDemoState).level = 1 ∧
    (tick demoInput sanityDemoState).session = Session.PLAYING ∧
    (tick demoInput sanityDemoState).sanity.flashlightTimer = 0 ∧
    (tick demoInput sanityDemoState).sanity.gain ≠ 0 ∧
    (handleStart sanityDemoState).session = Session.PLAYING ∧
    (handleStart sanityDemoState).sanity.gain ≠ 0 := by
  norm_num [tick, sanityTick, nearDoor, handleStart, min_def, max_def,
    sanityDemoState, demoInput, initialPlayer]

/-- C2 (amended): a level transition (door proximity at level 0, timer
not expired) and a game (re)start reset the flashlight timer to 0, but
leave the sanity audio gain unchanged — after the transition tick the
gain is whatever that tick's sanity update produced, and after
`handleStart` it is whatever it was before. -/
theorem sanity_reset_amended (i : TickInput) (g : GameState)
    (he : g.ended = false) (ht : g.elapsed + i.dt < 300)
    (hd : nearDoor g = true) (hl : g.level = 0) :
    (tick i g).sanity.flashlightTimer = 0 ∧
    (tick i g).sanity.gain = (sanityTick g.flashlightOn i.dt g.sanity).gain ∧
    (handleStart g).sanity.flashlightTimer = 0 ∧
    (handleStart g).sanity.gain = g.sanity.gain := by
  have hr : ¬(max 0 (300 - (g.elapsed + i.dt)) ≤ 0) := by
    simp only [max_le_iff, not_and, not_le]
    intro _
    linarith
  simp [tick, handleStart, he, hd, hl, hr]

/-- Witness for the amended C2, at the concrete door state. -/
theorem sanity_reset_amended_witness :
    (tick demoInput sanityDemoState).sanity.flashlightTimer = 0 ∧
    (tick demoInput sanityDemoState).sanity.gain =
      (sanityTick sanityDemoState.flashlightOn demoInput.dt sanityDemoState.sanity).gain ∧
    (handleStart sanityDemoState).sanity.flashlightTimer = 0 ∧
    (handleStart sanityDemoState).sanity.gain = sanityDemoState.sanity.gain :=
  sanity_reset_amended demoInput sanityDemoState rfl
    (by norm_num [sanityDemoState, demoInput])
    (by norm_num [nearDoor, sanityDemoState, initialPlayer]) rfl

/-- The same door state but with the 300s budget already used up. -/
def expiredDoorState : GameState := { sanityDemoState with elapsed := 300 }

/-- C7 counterexample: a PLAYING tick within door proximity at level 0
does NOT always advance the level — when the countdown has expired the
timer branch runs first and the tick transitions to LOST with the level
unchanged. -/
theorem door_transition_counterexample :
    expiredDoorState.session = Session.PLAYING ∧
    expiredDoorState.ended = false ∧
    expiredDoorState.level = 0 ∧
    nearDoor expiredDoorState = true ∧
    (tick demoInput expiredDoorState).session = Session.LOST ∧
    (tick demoInput expiredDoorState).level = 0 := by
  norm_num [tick, sanityTick, nearDoor, min_def, max_def,
    expiredDoorState, sanityDemoState, demoInput, initialPlayer]

/-- C7 (amended): on a PLAYING tick whose countdown has not yet expired,
door proximity at level 0 keeps the session PLAYING with the level set
to 1, the player moved to the origin and the countdown reset, while door
proximity at level 1 transitions the session to WON; no other transition
happens on such a tick. -/
theorem door_transition_amended (i : TickInput) (g : GameState)
    (hs : g.session = Session.PLAYING) (he : g.ended = false)
    (ht : g.elapsed + i.dt < 300) (hd : nearDoor g = true) :
    (g.level = 0 →
      (tick i g).session = Session.PLAYING ∧ (tick i g).level = 1 ∧
      (tick i g).player.x = 0 ∧ (tick i g).player.z = 0 ∧
      (tick i g).elapsed = 0 ∧ (tick i g).ended = false) ∧
    (g.level = 1 →
      (tick i g).session = Session.WON ∧ (tick i g).ended = true ∧
      (tick i g).level = 1) := by
  have hr : ¬(max 0 (300 - (g.elapsed + i.dt)) ≤ 0) := by
    simp only [max_le_iff, not_and, not_le]
    intro _
    linarith
  constructor
  · intro hl
    simp [tick, he, hd, hl, hr, hs]
  · intro hl
    simp [tick, he, hd, hl, hr]

/-- The door state at level 1 (one step from winning). -/
def doorStateL1 : GameState := { sanityDemoState with level := 1 }

/-- Witness for the amended C7: the concrete door tick advances level 0
to level 1 in PLAYING, and wins from level 1. -/
theorem door_transition_amended_witness :
    ((tick demoInput sanityDemoState).session = Session.PLAYING ∧
     (tick demoInput sanityDemoState).level = 1 ∧
     (tick demoInput sanityDemoState).player.x = 0 ∧
     (tick demoInput sanityDemoState).player.z = 0 ∧
     (tick demoInput sanityDemoState).elapsed = 0 ∧
     (tick demoInput sanityDemoState).ended = false) ∧
    ((tick demoInput doorStateL1).session = Session.WON ∧
     (tick demoInput doorStateL1).ended = true ∧
     (tick demoInput doorStateL1).level = 1) :=
  ⟨(door_transition_amended demoInput sanityDemoState rfl rfl
      (by norm_num [sanityDemoState, demoInput])
      (by norm_num [nearDoor, sanityDemoState, initialPlayer])).1 rfl,
   (door_transition_amended demoInput doorStateL1 rfl rfl
      (by norm_num [doorStateL1, sanityDemoState, demoInput])
      (by norm_num [nearDoor, doorStateL1, sanityDemoState, initialPlayer])).2 rfl⟩

/-- C8: with the session PLAYING and 300s or more elapsed, the next tick
transitions to LOST, sets the terminal flag and leaves the player
untouched; and once the terminal flag is set, any number of further
ticks (with any inputs) changes nothing at all — in particular the
player's position never changes again. -/
theorem timer_expiry_freeze (i : TickInput) (g : GameState) :
    (g.session = Session.PLAYING → g.ended = false → 300 ≤ g.elapsed → 0 ≤ i.dt →
      (tick i g).session = Session.LOST ∧ (tick i g).ended = true ∧
      (tick i g).player = g.player) ∧
    (g.ended = true → ∀ (inps : Nat → TickInput) (n : Nat), runTicks inps n g = g) := by
  constructor
  · intro _ he ht hdt
    have hr : max 0 (300 - (g.elapsed + i.dt)) ≤ 0 := max_le le_rfl (by linarith)
    simp [tick, he, hr]
  · intro he inps n
    induction n generalizing inps with
    | zero => rfl
    | succ n ih =>
        have h1 : tick (inps 0) g = g := by simp [tick, he]
        simp only [runTicks, h1]
        exact ih _

/-- An expired mid-game state away from the door. -/
def expiredState : GameState :=
  { sanityDemoState with elapsed := 300, doorX := 10, doorZ := 10 }

/-- A terminal-flagged state. -/
def endedState : GameState := { sanityDemoState with ended := true }

/-- Witness for C8: the expired tick loses and freezes the player, and
three ticks on a terminal state change nothing. -/
theorem timer_expiry_freeze_witness :
    ((tick demoInput expiredState).session = Session.LOST ∧
     (tick demoInput expiredState).ended = true ∧
     (tick demoInput expiredState).player = expiredState.player) ∧
    runTicks (fun _ => demoInput) 3 endedState = endedState :=
  ⟨(timer_expiry_freeze demoInput expiredState).1 rfl rfl
      (by norm_num [expiredState, sanityDemoState])
      (by norm_num [demoInput]),
   (timer_expiry_freeze demoInput endedState).2 rfl (fun _ => demoInput) 3⟩

/-- Any accepted inner-wall candidate misses the spawn circle: its
center is at least 4 units (in one coordinate) from the origin, while
hitting `collides(0, 0, 0.4)` would need the center within 2.4 units on
x and 0.9 on z (or vice versa). -/
theorem candWall_miss_origin (doorX doorZ : ℚ) (c : WallCand)
    (h : candAccepted doorX doorZ c = true) :
    wallHit (2/5) 0 0 (candWall c) = false := by
  rcases Bool.eq_false_or_eq_true (wallHit (2/5) 0 0 (candWall c)) with htr | hf
  · exfalso
    simp only [wallHit, candWall, mkWall, Bool.and_eq_true, decide_eq_true_eq] at htr
    obtain ⟨⟨⟨h1, h2⟩, h3⟩, h4⟩ := htr
    simp only [candAccepted, Bool.and_eq_true, Bool.not_eq_true',
      Bool.and_eq_false_iff, decide_eq_false_iff_not, decide_eq_true_eq, not_lt] at h
    have hrx : |c.rx| < 4 := by
      rcases Bool.eq_false_or_eq_true c.horizontal with hc | hc
      all_goals simp only [hc] at h1 h2
      all_goals norm_num at h1 h2
      all_goals exact abs_lt.mpr ⟨by linarith, by linarith⟩
    have hrz : |c.rz| < 4 := by
      rcases Bool.eq_false_or_eq_true c.horizontal with hc | hc
      all_goals simp only [hc] at h3 h4
      all_goals norm_num at h3 h4
      all_goals exact abs_lt.mpr ⟨by linarith, by linarith⟩
    rcases h.1 with hx | hz
    · exact absurd hrx (not_lt.mpr hx)
    · exact absurd hrz (not_lt.mpr hz)
  · exact hf

/-- C9: spawn safety of level-0 generation — for any door position and
any list of inner-wall candidates that passed the generation loop's
acceptance test (each with the 4×1 or 1×4 footprint, at most 25 of
them), the generated wall set (boundary walls plus accepted inner walls)
reports no collision for `collides(0, 0, 0.4)`: the player spawning at
the origin never starts inside a wall. -/
theorem spawn_safety (doorX doorZ : ℚ) (inner : List WallCand)
    (hacc : ∀ c ∈ inner, candAccepted doorX doorZ c = true)
    (hcount : inner.length ≤ 25) :
    checkCollision (boundaryWalls ++ inner.map candWall) (2/5) 0 0 = false := by
  simp only [checkCollision, List.any_append, Bool.or_eq_false_iff]
  constructor
  · norm_num [boundaryWalls, mkWall, wallHit, List.any]
  · rw [List.any_eq_false]
    intro w hw
    obtain ⟨c, hc, rfl⟩ := List.mem_map.mp hw
    simp only [Bool.not_eq_true]
    exact candWall_miss_origin doorX doorZ c (hacc c hc)

/-- Witness for C9: a concrete generation outcome — door at (17, 0), two
accepted inner walls — is spawn-safe. -/
theorem spawn_safety_witness :
    checkCollision
      (boundaryWalls ++
        ([WallCand.mk 10 5 true, WallCand.mk (-8) 12 false].map candWall)) (2/5) 0 0
      = false :=
  spawn_safety 17 0 [WallCand.mk 10 5 true, WallCand.mk (-8) 12 false]
    (by
      intro c hc
      simp only [List.mem_cons, List.mem_singleton] at hc
      rcases hc with h | h | h
      · norm_num [h, candAccepted]
      · norm_num [h, candAccepted]
      · cases h)
    (by norm_num)
